import Mathlib

/-!
Verification of the minder control-plane core against its specification.

Tables are modelled as lists of rows, uuids and timestamps as naturals,
and jsonb payloads as strings.  SQL statements generated by sqlc
(rule_instances.sql.go, rule_types.sql.go) are embedded as pure
functions on these lists.
-/

namespace Minder

/-! ## Rule instances (internal/db/rule_instances.sql.go) -/

/-- Row of the rule_instances table, fields as scanned by sqlc.
The jsonb column named def is called defn here because def is a Lean
keyword. -/
structure RuleInstanceRow where
  id : Nat
  profile_id : Nat
  rule_type_id : Nat
  name : String
  entity_type : String
  defn : String
  params : String
  created_at : Nat
  updated_at : Nat
  deriving Repr, DecidableEq

/-- Parameters of DeleteNonUpdatedRules. -/
structure DeleteNonUpdatedRulesParams where
  profileID : Nat
  entityType : String
  updatedIds : List Nat
  deriving Repr

/-- DeleteNonUpdatedRules: DELETE FROM rule_instances WHERE profile_id = $1
AND entity_type = $2 AND NOT id = ANY($3::UUID[]).  A row survives iff it
does not satisfy the WHERE clause. -/
def DeleteNonUpdatedRules (arg : DeleteNonUpdatedRulesParams)
    (tbl : List RuleInstanceRow) : List RuleInstanceRow :=
  tbl.filter fun r =>
    ! (r.profile_id == arg.profileID && r.entity_type == arg.entityType
        && ! arg.updatedIds.contains r.id)

/-- Parameters of UpsertRuleInstance. -/
structure UpsertRuleInstanceParams where
  profileID : Nat
  ruleTypeID : Nat
  name : String
  entityType : String
  defn : String
  params : String
  deriving Repr

/-- Conflict target of the upsert: the unique key (profile_id, entity_type,
name). -/
def ruleInstanceKeyMatches (arg : UpsertRuleInstanceParams)
    (r : RuleInstanceRow) : Bool :=
  r.profile_id == arg.profileID && r.entity_type == arg.entityType
    && r.name == arg.name

/-- UpsertRuleInstance: INSERT ... ON CONFLICT (profile_id, entity_type, name)
DO UPDATE SET rule_type_id = $2, def = $5, params = $6, updated_at = NOW()
RETURNING id.  now stands for NOW(); freshId is the id the database would
assign to a newly inserted row.  Returns the RETURNING id and the new table. -/
def UpsertRuleInstance (now freshId : Nat) (arg : UpsertRuleInstanceParams)
    (tbl : List RuleInstanceRow) : Nat × List RuleInstanceRow :=
  match tbl.find? (ruleInstanceKeyMatches arg) with
  | some r =>
      (r.id, tbl.map fun x =>
        if ruleInstanceKeyMatches arg x then
          { x with rule_type_id := arg.ruleTypeID, defn := arg.defn,
                   params := arg.params, updated_at := now }
        else x)
  | none =>
      (freshId, tbl ++ [⟨freshId, arg.profileID, arg.ruleTypeID, arg.name,
          arg.entityType, arg.defn, arg.params, now, now⟩])

/-! ## Rule types (rule_types.sql.go, appended to the controlplane sources) -/

/-- Row of the rule_type table, fields as scanned by sqlc. -/
structure RuleTypeRow where
  id : Nat
  name : String
  provider : Option Nat
  project_id : Nat
  description : String
  guidance : String
  definition : String
  created_at : Nat
  updated_at : Nat
  severity_value : String
  provider_id : Option Nat
  subscription_id : Option Nat
  display_name : String
  release_phase : String
  short_failure_message : String
  deriving Repr, DecidableEq

/-- Parameters of UpdateRuleType. -/
structure UpdateRuleTypeParams where
  id : Nat
  description : String
  definition : String
  severityValue : String
  displayName : String
  releasePhase : String
  shortFailureMessage : String
  deriving Repr

/-- Effect of the SET clause of UpdateRuleType on one row. -/
def updateRuleTypeRow (arg : UpdateRuleTypeParams) (r : RuleTypeRow) :
    RuleTypeRow :=
  { r with description := arg.description, definition := arg.definition,
           severity_value := arg.severityValue,
           display_name := arg.displayName,
           release_phase := arg.releasePhase,
           short_failure_message := arg.shortFailureMessage }

/-- UpdateRuleType: UPDATE rule_type SET description = $2,
definition = $3::jsonb, severity_value = $4, display_name = $5,
release_phase = $6, short_failure_message = $7 WHERE id = $1. -/
def UpdateRuleType (arg : UpdateRuleTypeParams) (tbl : List RuleTypeRow) :
    List RuleTypeRow :=
  tbl.map fun r => if r.id == arg.id then updateRuleTypeRow arg r else r

/-! ## Entity-context resolution and authorization interceptors

The implementing file internal/controlplane/handlers_authz.go is not part
of the sources; only its test is.  The definitions in this section are
modelled from the spec (section 4.1) and checked against the expectations
of TestEntityContextProjectInterceptor and TestProjectAuthorizationInterceptor. -/

/-- Declared target-resource kind of an RPC method. -/
inductive TargetResource
  | noResource
  | user
  | project
  | unspecified
  deriving Repr, DecidableEq

/-- Call-scoped RPC options carrying the declared target resource. -/
structure RpcOptions where
  targetResource : TargetResource
  deriving Repr, DecidableEq

/-- Wire-level context of a request message: optional declared project id
(string form) and optional provider name. -/
structure PBCtx where
  project : Option String
  provider : Option String
  deriving Repr, DecidableEq

/-- An incoming request message: either it does not expose the context
accessor at all, or it exposes one returning an optional context. -/
inductive RequestMsg
  | noAccessor
  | withCtx (c : Option PBCtx)
  deriving Repr, DecidableEq

/-- Project scope; id 0 is the zero value (no scope resolved). -/
structure Project where
  id : Nat := 0
  deriving Repr, DecidableEq

/-- Provider scope; the empty name is the zero value. -/
structure Provider where
  name : String := ""
  deriving Repr, DecidableEq

/-- Resolved scope of a call, attached to the call context. -/
structure EntityContext where
  project : Project := {}
  provider : Provider := {}
  deriving Repr, DecidableEq

/-- Status code classes used by the interceptors. -/
inductive Code
  | internal
  | invalidArgument
  | permissionDenied
  deriving Repr, DecidableEq

/-- A grpc status error with its user-visible message. -/
structure RpcError where
  code : Code
  msg : String
  deriving Repr, DecidableEq

/-- Numeric value of a decimal digit character; none for any other
character. -/
def digitVal (ch : Char) : Option Nat :=
  if ch.isDigit then some (ch.toNat - 48) else none

/-- Modelled from the spec: parsing of a declared project id string
(uuid.Parse in the implementation, which is absent from the sources).
In the model the id space is Nat and a string parses iff it is a
non-empty decimal numeral. -/
def parseProjectID (s : String) : Option Nat :=
  if s.data = [] then none
  else (s.data.mapM digitVal).map (List.foldl (fun a d => 10 * a + d) 0)

/-- Modelled from the spec: default project resolution.  When the request
declares no project the context defaults to the single project in the
caller's permission set; a set of size other than one yields the zero
value. -/
def defaultProject (perms : List Nat) : Nat :=
  match perms with
  | [p] => p
  | _ => 0

/-- Modelled from the spec: EntityContextProjectInterceptor (its
implementation in internal/controlplane/handlers_authz.go is absent from
the sources).  Requires the request message to expose a context accessor
(internal error otherwise); fails with an internal error when the declared
target-resource kind is unspecified; is a no-op attaching an empty
EntityContext for non-project-scoped resources; otherwise resolves the
project from the declared id (invalid-argument error on a malformed one)
or from the caller's permission set, attaches the provider name verbatim,
and invokes the handler with the resolved EntityContext. -/
def EntityContextProjectInterceptor {α : Type} (opts : RpcOptions)
    (perms : List Nat) (req : RequestMsg)
    (handler : EntityContext → α) : Except RpcError α :=
  match req with
  | .noAccessor =>
      .error ⟨.internal, "Error extracting context from request"⟩
  | .withCtx c =>
    match opts.targetResource with
    | .unspecified =>
        .error ⟨.internal,
          "cannot perform authorization, because target resource is unspecified"⟩
    | .project =>
        let providerName := (c.bind PBCtx.provider).getD ""
        match c.bind PBCtx.project with
        | some s =>
            match parseProjectID s with
            | some pid => .ok (handler ⟨⟨pid⟩, ⟨providerName⟩⟩)
            | none => .error ⟨.invalidArgument, "malformed project ID"⟩
        | none => .ok (handler ⟨⟨defaultProject perms⟩, ⟨providerName⟩⟩)
    | _ => .ok (handler {})

/-- Modelled from the spec: ProjectAuthorizationInterceptor (its
implementation in internal/controlplane/handlers_authz.go is absent from
the sources).  No-op for non-project-scoped target resources; otherwise
the resolved project id must be a member of the caller's permitted project
set, any miss producing one uniform user-visible permission-denied
error. -/
def ProjectAuthorizationInterceptor {α : Type} (opts : RpcOptions)
    (perms : List Nat) (entityCtx : EntityContext)
    (handler : Unit → α) : Except RpcError α :=
  match opts.targetResource with
  | .project =>
      if perms.contains entityCtx.project.id then .ok (handler ())
      else .error ⟨.permissionDenied,
        "user is not authorized to access this project"⟩
  | _ => .ok (handler ())

/-! ## Security-advisory alert action

The implementing file (the security_advisory package body) is not part of
the sources; only its test is.  The definitions in this section are
modelled from the spec (section 4.3) and checked against the expectations
of TestSecurityAdvisoryAlert. -/

/-- Action command given to an action's Do. -/
inductive ActionCmd
  | on
  | off
  | dryRun
  deriving Repr, DecidableEq

/-- Evaluation outcome consumed by the action dispatcher. -/
inductive EvalOutcome
  | success
  | failure
  | evalError
  | skipped
  deriving Repr, DecidableEq

/-- Engine error taxonomy relevant to actions: an action-failed error is a
distinct kind from an evaluation error. -/
inductive EngineError
  | actionFailed
  | evaluationFailed
  deriving Repr, DecidableEq

/-- Persisted metadata of a created security advisory. -/
structure AlertMeta where
  ghsa_id : String
  deriving Repr, DecidableEq

/-- JSON rendering of the advisory metadata, matching the shape
asserted by the test: an object with the single key ghsa_id. -/
def renderMeta (m : AlertMeta) : String :=
  "\x7b\"ghsa_id\":\"" ++ m.ghsa_id ++ "\"\x7d"

/-- Alert configuration taken from the rule type definition. -/
structure SAConfig where
  severity : String
  deriving Repr, DecidableEq

/-- Provider capability consumed by the action: creating an advisory
(given the configured severity, returning the external ghsa id) and
closing one.  The model records the result each call would return. -/
structure SAProvider where
  createSecurityAdvisory : String → Except String String
  closeSecurityAdvisory : Except String Unit

/-- Result of one Do invocation: the returned metadata, the returned
error, and how many provider calls were issued. -/
structure DoResult where
  meta : Option AlertMeta
  err : Option EngineError
  providerCalls : Nat
  deriving Repr, DecidableEq

/-- Modelled from the spec: the Do method of the security-advisory alert
action (its implementation is absent from the sources).  On with a failing
outcome and no prior state creates the advisory (action-failed error and
nil metadata when the provider call fails); On with a passing outcome and
prior state closes it; matching state or a passing outcome with no state
is a no-op returning the prior metadata; Off never calls the provider and
clears metadata; DryRun returns the prior metadata without provider
calls.  Outcomes other than success and failure are not acted upon. -/
def saDo (cfg : SAConfig) (cmd : ActionCmd) (outcome : EvalOutcome)
    (prior : Option AlertMeta) (gh : SAProvider) : DoResult :=
  match cmd with
  | .off => ⟨none, none, 0⟩
  | .dryRun => ⟨prior, none, 0⟩
  | .on =>
    match outcome, prior with
    | .failure, none =>
        match gh.createSecurityAdvisory cfg.severity with
        | .ok saId => ⟨some ⟨saId⟩, none, 1⟩
        | .error _ => ⟨none, some .actionFailed, 1⟩
    | .failure, some m => ⟨some m, none, 0⟩
    | .success, some _ =>
        match gh.closeSecurityAdvisory with
        | .ok _ => ⟨none, none, 1⟩
        | .error _ => ⟨none, some .actionFailed, 1⟩
    | .success, none => ⟨none, none, 0⟩
    | _, _ => ⟨prior, none, 0⟩

/-! ## Data-source registry builder

The implementing file (the datasources service body) is not part of the
sources; only its test is.  The definitions in this section are modelled
from the spec (section 4.4) and checked against the expectations of
TestBuildDataSourceRegistry. -/

/-- Decoded definition payload of a REST-driver data-source function. -/
structure RestDef where
  endpoint : String
  deriving Repr, DecidableEq

/-- Row of the data_sources table as returned by the Store. -/
structure DataSource where
  id : Nat
  name : String
  projectID : Nat
  deriving Repr, DecidableEq

/-- Row of the data_sources_functions table as returned by the Store.
The driver type tag selects the decoder; the definition payload either
decodes to a REST definition or is malformed (modelled as none). -/
structure DataSourcesFunction where
  id : Nat
  dataSourceID : Nat
  name : String
  driverType : String
  definition : Option RestDef
  deriving Repr, DecidableEq

/-- Store capabilities consumed by the registry build, each modelled by
the result it would return. -/
structure Store where
  getParentProjects : Nat → Except String (List Nat)
  getDataSourceByName : String → List Nat → Except String DataSource
  listDataSourceFunctions : Nat → Except String (List DataSourcesFunction)

/-- A data-source reference declared in a rule type's eval section. -/
structure DSRef where
  name : String
  deriving Repr, DecidableEq

/-- The slice of a rule type consumed by the registry build: the declared
project id (string form, absent field reads as empty) and the declared
data-source references in declaration order (a nil reference is none). -/
structure RuleTypeDS where
  project : Option String
  dataSources : List (Option DSRef)

/-- Failure classes of the registry build. -/
inductive BuildError
  | invalidProjectID
  | nilReference
  | emptyName
  | storeError (msg : String)
  | zeroFunctions
  | badFunctionDefinition
  | nameCollision
  deriving Repr, DecidableEq

/-- A function registered in the registry under its data source's
namespace. -/
structure RegisteredFunction where
  qualifiedName : String
  rest : RestDef
  deriving Repr, DecidableEq

/-- Modelled from the spec: driver-selected decoding of one data-source
function; only the REST driver is supported and a malformed payload fails
the decode. -/
def decodeFunction (f : DataSourcesFunction) : Except BuildError RestDef :=
  if f.driverType = "rest" then
    match f.definition with
    | some d => .ok d
    | none => .error .badFunctionDefinition
  else .error .badFunctionDefinition

/-- Modelled from the spec: decoding of every listed function of a data
source in order, qualifying each name with the data source's namespace;
the first undecodable function aborts. -/
def decodeAll (ns : String) :
    List DataSourcesFunction → Except BuildError (List RegisteredFunction)
  | [] => .ok []
  | f :: rest =>
    match decodeFunction f with
    | .error e => .error e
    | .ok d =>
      match decodeAll ns rest with
      | .error e => .error e
      | .ok ds => .ok (⟨ns ++ "." ++ f.name, d⟩ :: ds)

/-- Modelled from the spec: registration of decoded functions into the
accumulated registry, rejecting name collisions. -/
def addFunctions (acc fns : List RegisteredFunction) :
    Except BuildError (List RegisteredFunction) :=
  fns.foldlM (fun a fn =>
    if a.any (fun g => g.qualifiedName = fn.qualifiedName) then
      .error .nameCollision
    else .ok (a ++ [fn])) acc

/-- Modelled from the spec: processing of one declared data-source
reference.  A nil reference or an empty name is fatal; the named data
source is looked up in the resolved project set; its functions are
listed; zero functions is fatal; every function must decode; decoded
functions are registered under the data source's namespace. -/
def registerDataSource (st : Store) (projs : List Nat)
    (acc : List RegisteredFunction) (ref : Option DSRef) :
    Except BuildError (List RegisteredFunction) :=
  match ref with
  | none => .error .nilReference
  | some r =>
    if r.name = "" then .error .emptyName
    else
      match st.getDataSourceByName r.name projs with
      | .error e => .error (.storeError e)
      | .ok ds =>
        match st.listDataSourceFunctions ds.id with
        | .error e => .error (.storeError e)
        | .ok fns =>
          if fns.isEmpty then .error .zeroFunctions
          else
            match decodeAll ds.name fns with
            | .error e => .error e
            | .ok decoded => addFunctions acc decoded

/-- Modelled from the spec: BuildDataSourceRegistry (its implementation is
absent from the sources).  Parses the rule type's project id, resolves the
ancestor project chain through the Store, then processes every declared
reference in order; any failure aborts the whole build. -/
def BuildDataSourceRegistry (st : Store) (rt : RuleTypeDS) :
    Except BuildError (List RegisteredFunction) :=
  match parseProjectID (rt.project.getD "") with
  | none => .error .invalidProjectID
  | some pid =>
    match st.getParentProjects pid with
    | .error e => .error (.storeError e)
    | .ok projs => rt.dataSources.foldlM (registerDataSource st projs) []

/-- A list of functions with zero decodable members: empty, or no member
decodes. -/
def zeroDecodable (fns : List DataSourcesFunction) : Prop :=
  fns = [] ∨ ∀ f ∈ fns, ∀ d, decodeFunction f ≠ .ok d

/-- A declared reference on which the build must fail: nil, empty name,
failing data-source lookup, failing function listing, or zero decodable
functions. -/
def badRef (st : Store) (projs : List Nat) (ref : Option DSRef) : Prop :=
  ref = none ∨
    ∃ r, ref = some r ∧
      (r.name = "" ∨
        (∃ e, st.getDataSourceByName r.name projs = .error e) ∨
        (∃ ds, st.getDataSourceByName r.name projs = .ok ds ∧
          ((∃ e, st.listDataSourceFunctions ds.id = .error e) ∨
            (∃ fns, st.listDataSourceFunctions ds.id = .ok fns ∧
              zeroDecodable fns))))

/-! ## Theorems -/

/-- C8: DeleteNonUpdatedRules deletes exactly those rule_instances rows
whose profile_id and entity_type match and whose id is not in the
submitted set, leaving submitted rows and rows of other profiles or
entity types unchanged; in particular, submitting ids 10 and 20 for a
profile/entity-type that previously held rows with ids 10 and 30 deletes
row 30 and leaves row 10 intact. -/
theorem DeleteNonUpdatedRules_exact :
    (∀ (arg : DeleteNonUpdatedRulesParams) (tbl : List RuleInstanceRow)
        (r : RuleInstanceRow),
      r ∈ DeleteNonUpdatedRules arg tbl ↔
        r ∈ tbl ∧ ¬ (r.profile_id = arg.profileID ∧
          r.entity_type = arg.entityType ∧ r.id ∉ arg.updatedIds)) ∧
    DeleteNonUpdatedRules ⟨1, "repository", [10, 20]⟩
        [⟨10, 1, 5, "A", "repository", "d", "p", 0, 0⟩,
         ⟨30, 1, 5, "C", "repository", "d", "p", 0, 0⟩]
      = [⟨10, 1, 5, "A", "repository", "d", "p", 0, 0⟩] := by
  constructor
  · intro arg tbl r
    simp [DeleteNonUpdatedRules, List.mem_filter]
    tauto
  · decide

/-- C9: when a row with the submitted (profile_id, entity_type, name)
exists, UpsertRuleInstance returns that row's id, keeps the row count
unchanged (no second row is inserted), keeps every non-matching row
as-is, and replaces the matching row in place with its rule_type_id, def
and params overwritten and updated_at bumped to NOW() while id,
created_at and the key fields are kept; when no row matches, it inserts a
fresh row whose created_at and updated_at are both NOW() and returns the
fresh id. -/
theorem UpsertRuleInstance_upsert (now freshId : Nat)
    (arg : UpsertRuleInstanceParams) (tbl : List RuleInstanceRow) :
    (∀ r, tbl.find? (ruleInstanceKeyMatches arg) = some r →
      (UpsertRuleInstance now freshId arg tbl).1 = r.id ∧
      (UpsertRuleInstance now freshId arg tbl).2.length = tbl.length ∧
      (∀ x ∈ tbl, ruleInstanceKeyMatches arg x = false →
        x ∈ (UpsertRuleInstance now freshId arg tbl).2) ∧
      (∀ x ∈ tbl, ruleInstanceKeyMatches arg x = true →
        { x with rule_type_id := arg.ruleTypeID, defn := arg.defn,
                 params := arg.params, updated_at := now }
          ∈ (UpsertRuleInstance now freshId arg tbl).2)) ∧
    (tbl.find? (ruleInstanceKeyMatches arg) = none →
      UpsertRuleInstance now freshId arg tbl
        = (freshId, tbl ++ [⟨freshId, arg.profileID, arg.ruleTypeID,
            arg.name, arg.entityType, arg.defn, arg.params, now, now⟩])) := by
  constructor
  · intro r hr
    refine ⟨by simp [UpsertRuleInstance, hr], by simp [UpsertRuleInstance, hr],
        ?_, ?_⟩
    · intro x hx hkey
      have hm := List.mem_map_of_mem (fun x =>
        if ruleInstanceKeyMatches arg x then
          { x with rule_type_id := arg.ruleTypeID, defn := arg.defn,
                   params := arg.params, updated_at := now }
        else x) hx
      simpa [UpsertRuleInstance, hr, hkey] using hm
    · intro x hx hkey
      have hm := List.mem_map_of_mem (fun x =>
        if ruleInstanceKeyMatches arg x then
          { x with rule_type_id := arg.ruleTypeID, defn := arg.defn,
                   params := arg.params, updated_at := now }
        else x) hx
      simpa [UpsertRuleInstance, hr, hkey] using hm
  · intro h
    simp [UpsertRuleInstance, h]

/-- Witness for C9 at concrete inputs: an upsert whose key matches the
sole existing row returns that row's id, and an upsert with a fresh name
appends a new row with both timestamps set to NOW(). -/
theorem UpsertRuleInstance_upsert_witness :
    (UpsertRuleInstance 5 99 ⟨1, 6, "r1", "repo", "d1", "p1"⟩
        [⟨10, 1, 4, "r1", "repo", "d0", "p0", 0, 0⟩]).1 = 10 ∧
    UpsertRuleInstance 5 99 ⟨1, 6, "r2", "repo", "d1", "p1"⟩
        [⟨10, 1, 4, "r1", "repo", "d0", "p0", 0, 0⟩]
      = (99, [⟨10, 1, 4, "r1", "repo", "d0", "p0", 0, 0⟩,
              ⟨99, 1, 6, "r2", "repo", "d1", "p1", 5, 5⟩]) := by
  constructor
  · exact ((UpsertRuleInstance_upsert 5 99 ⟨1, 6, "r1", "repo", "d1", "p1"⟩
      [⟨10, 1, 4, "r1", "repo", "d0", "p0", 0, 0⟩]).1
      ⟨10, 1, 4, "r1", "repo", "d0", "p0", 0, 0⟩ (by decide)).1
  · exact (UpsertRuleInstance_upsert 5 99 ⟨1, 6, "r2", "repo", "d1", "p1"⟩
      [⟨10, 1, 4, "r1", "repo", "d0", "p0", 0, 0⟩]).2 (by decide)

/-- C10: UpdateRuleType keeps the row count, leaves every row whose id
differs from the argument id untouched, and on the row with the given id
changes only description, definition, severity_value, display_name,
release_phase and short_failure_message, preserving name, provider,
project_id, guidance, created_at, updated_at, provider_id and
subscription_id. -/
theorem UpdateRuleType_frame (arg : UpdateRuleTypeParams)
    (tbl : List RuleTypeRow) (i : Nat) (r : RuleTypeRow)
    (hi : tbl.get? i = some r) :
    (UpdateRuleType arg tbl).length = tbl.length ∧
    (r.id ≠ arg.id → (UpdateRuleType arg tbl).get? i = some r) ∧
    (r.id = arg.id → ∃ r', (UpdateRuleType arg tbl).get? i = some r' ∧
      r'.id = r.id ∧ r'.name = r.name ∧ r'.provider = r.provider ∧
      r'.project_id = r.project_id ∧ r'.guidance = r.guidance ∧
      r'.created_at = r.created_at ∧ r'.updated_at = r.updated_at ∧
      r'.provider_id = r.provider_id ∧
      r'.subscription_id = r.subscription_id ∧
      r'.description = arg.description ∧ r'.definition = arg.definition ∧
      r'.severity_value = arg.severityValue ∧
      r'.display_name = arg.displayName ∧
      r'.release_phase = arg.releasePhase ∧
      r'.short_failure_message = arg.shortFailureMessage) := by
  rw [List.get?_eq_getElem?] at hi
  refine ⟨by simp [UpdateRuleType], ?_, ?_⟩
  · intro hne
    simp [UpdateRuleType, List.get?_eq_getElem?, List.getElem?_map, hi, hne]
  · intro heq
    refine ⟨updateRuleTypeRow arg r,
      by simp [UpdateRuleType, List.get?_eq_getElem?, List.getElem?_map,
        hi, heq], ?_⟩
    simp [updateRuleTypeRow]

/-- Witness for C10 at a concrete two-row table: the non-matching row is
returned verbatim and the matching row keeps its identity fields while
taking the six updated columns from the arguments. -/
theorem UpdateRuleType_frame_witness :
    (UpdateRuleType ⟨2, "D", "J", "high", "DN", "ga", "SF"⟩
        [⟨1, "a", none, 7, "da", "ga", "ja", 3, 4, "low", none, none,
          "A", "alpha", "sa"⟩,
         ⟨2, "b", none, 7, "db", "gb", "jb", 3, 4, "low", none, none,
          "B", "alpha", "sb"⟩]).get? 0
      = some ⟨1, "a", none, 7, "da", "ga", "ja", 3, 4, "low", none, none,
          "A", "alpha", "sa"⟩ ∧
    ∃ r', (UpdateRuleType ⟨2, "D", "J", "high", "DN", "ga", "SF"⟩
        [⟨1, "a", none, 7, "da", "ga", "ja", 3, 4, "low", none, none,
          "A", "alpha", "sa"⟩,
         ⟨2, "b", none, 7, "db", "gb", "jb", 3, 4, "low", none, none,
          "B", "alpha", "sb"⟩]).get? 1 = some r' ∧
      r'.name = "b" ∧ r'.guidance = "gb" ∧ r'.created_at = 3 ∧
      r'.description = "D" := by
  constructor
  · exact (UpdateRuleType_frame ⟨2, "D", "J", "high", "DN", "ga", "SF"⟩
      _ 0 ⟨1, "a", none, 7, "da", "ga", "ja", 3, 4, "low", none, none,
        "A", "alpha", "sa"⟩ (by decide)).2.1 (by decide)
  · obtain ⟨r', hget, -, hname, -, -, hguid, hcreated, -, -, -, hdesc, -⟩ :=
      (UpdateRuleType_frame ⟨2, "D", "J", "high", "DN", "ga", "SF"⟩
        [⟨1, "a", none, 7, "da", "ga", "ja", 3, 4, "low", none, none,
          "A", "alpha", "sa"⟩,
         ⟨2, "b", none, 7, "db", "gb", "jb", 3, 4, "low", none, none,
          "B", "alpha", "sb"⟩] 1
        ⟨2, "b", none, 7, "db", "gb", "jb", 3, 4, "low", none, none,
          "B", "alpha", "sb"⟩ (by decide)).2.2 (by decide)
    exact ⟨r', hget, hname, hguid, hcreated, hdesc⟩

/-- C1: for every project-scoped request whose resolved EntityContext
project is not a member of the caller's permitted project set — the zero
project included — the authorization interceptor returns a
permission-denied error with one fixed user-visible message, so the error
is identical for the zero-project case and the non-member case and the
handler is never invoked (the result does not depend on the handler). -/
theorem ProjectAuthorizationInterceptor_denies_nonmember {α : Type}
    (opts : RpcOptions) (perms : List Nat) (ec : EntityContext)
    (handler : Unit → α)
    (hp : opts.targetResource = .project)
    (hm : ec.project.id ∉ perms) :
    ProjectAuthorizationInterceptor opts perms ec handler
      = .error ⟨.permissionDenied,
          "user is not authorized to access this project"⟩ := by
  simp [ProjectAuthorizationInterceptor, hp, List.contains, hm]

/-- Witness for C1 at concrete inputs: with permitted set containing only
project 5, the zero project and the non-member project 3 are both denied
with the same error value. -/
theorem ProjectAuthorizationInterceptor_denies_nonmember_witness :
    ProjectAuthorizationInterceptor (α := Bool) ⟨.project⟩ [5] ⟨⟨0⟩, ⟨""⟩⟩
        (fun _ => true)
      = .error ⟨.permissionDenied,
          "user is not authorized to access this project"⟩ ∧
    ProjectAuthorizationInterceptor (α := Bool) ⟨.project⟩ [5] ⟨⟨3⟩, ⟨""⟩⟩
        (fun _ => true)
      = .error ⟨.permissionDenied,
          "user is not authorized to access this project"⟩ :=
  ⟨ProjectAuthorizationInterceptor_denies_nonmember ⟨.project⟩ [5] ⟨⟨0⟩, ⟨""⟩⟩
      (fun _ => true) rfl (by decide),
   ProjectAuthorizationInterceptor_denies_nonmember ⟨.project⟩ [5] ⟨⟨3⟩, ⟨""⟩⟩
      (fun _ => true) rfl (by decide)⟩

/-- C5: for a project-scoped request declaring no project id, the
entity-context interceptor resolves the project to the single project of
a singleton permission set, and a declared parsable project id is used
verbatim instead; in both cases the handler is invoked on the resolved
EntityContext (the provider name attached verbatim or empty). -/
theorem EntityContextProjectInterceptor_resolution {α : Type}
    (opts : RpcOptions) (perms : List Nat) (c : PBCtx)
    (handler : EntityContext → α)
    (hopts : opts.targetResource = .project) :
    (c.project = none → ∀ p, perms = [p] →
      EntityContextProjectInterceptor opts perms (.withCtx (some c)) handler
        = .ok (handler ⟨⟨p⟩, ⟨c.provider.getD ""⟩⟩)) ∧
    (∀ s pid, c.project = some s → parseProjectID s = some pid →
      EntityContextProjectInterceptor opts perms (.withCtx (some c)) handler
        = .ok (handler ⟨⟨pid⟩, ⟨c.provider.getD ""⟩⟩)) := by
  constructor
  · intro hnone p hperms
    simp [EntityContextProjectInterceptor, hopts, Option.bind, hnone,
      hperms, defaultProject]
  · intro s pid hsome hparse
    simp [EntityContextProjectInterceptor, hopts, Option.bind, hsome, hparse]

/-- Witness for C5 at concrete inputs: with a singleton permission set
containing project 7 and no declared project, the handler sees project 7;
with declared project string 42 it sees project 42 together with the
declared provider name. -/
theorem EntityContextProjectInterceptor_resolution_witness :
    EntityContextProjectInterceptor (α := EntityContext) ⟨.project⟩ [7]
        (.withCtx (some ⟨none, none⟩)) (fun ec => ec)
      = .ok ⟨⟨7⟩, ⟨""⟩⟩ ∧
    EntityContextProjectInterceptor (α := EntityContext) ⟨.project⟩ [7]
        (.withCtx (some ⟨some "42", some "github"⟩)) (fun ec => ec)
      = .ok ⟨⟨42⟩, ⟨"github"⟩⟩ :=
  ⟨(EntityContextProjectInterceptor_resolution ⟨.project⟩ [7] ⟨none, none⟩
      (fun ec => ec) rfl).1 rfl 7 rfl,
   (EntityContextProjectInterceptor_resolution ⟨.project⟩ [7]
      ⟨some "42", some "github"⟩ (fun ec => ec) rfl).2 "42" 42 rfl (by decide)⟩

/-- C6: a request message that does not expose the context accessor, and
likewise a call whose declared target-resource kind is unspecified, makes
the entity-context interceptor return an internal-class error; the
handler is never invoked (the result does not depend on the handler), and
the interceptor is a total function, so it cannot panic. -/
theorem EntityContextProjectInterceptor_internal_errors {α : Type}
    (opts : RpcOptions) (perms : List Nat) (req : RequestMsg)
    (handler : EntityContext → α)
    (h : req = RequestMsg.noAccessor
       ∨ opts.targetResource = .unspecified) :
    ∃ m, EntityContextProjectInterceptor opts perms req handler
      = .error ⟨Code.internal, m⟩ := by
  rcases h with hreq | hopts
  · exact ⟨"Error extracting context from request", by
      simp [hreq, EntityContextProjectInterceptor]⟩
  · cases req with
    | noAccessor =>
        exact ⟨"Error extracting context from request", by
          simp [EntityContextProjectInterceptor]⟩
    | withCtx c =>
        exact ⟨"cannot perform authorization, because target resource is unspecified",
          by simp [EntityContextProjectInterceptor, hopts]⟩

/-- Witness for C6 at concrete inputs: a request without the accessor and
a request under an unspecified target resource both yield internal
errors. -/
theorem EntityContextProjectInterceptor_internal_errors_witness :
    (∃ m, EntityContextProjectInterceptor (α := Bool) ⟨.project⟩ []
        RequestMsg.noAccessor (fun _ => true) = .error ⟨Code.internal, m⟩) ∧
    (∃ m, EntityContextProjectInterceptor (α := Bool) ⟨.unspecified⟩ []
        (.withCtx none) (fun _ => true) = .error ⟨Code.internal, m⟩) :=
  ⟨EntityContextProjectInterceptor_internal_errors ⟨.project⟩ []
      RequestMsg.noAccessor (fun _ => true) (Or.inl rfl),
   EntityContextProjectInterceptor_internal_errors ⟨.unspecified⟩ []
      (.withCtx none) (fun _ => true) (Or.inr rfl)⟩

/-- C2: On with a failing outcome, rule-type severity HIGH and no prior
action state calls the provider's create-security-advisory capability
exactly once and, when it returns an identifier without error, Do returns
no error and metadata rendering exactly to the JSON object with the
single key ghsa_id bound to that identifier. -/
theorem saDo_creates_advisory (cfg : SAConfig) (gh : SAProvider)
    (saId : String)
    (_hsev : cfg.severity = "VALUE_HIGH")
    (hcreate : gh.createSecurityAdvisory cfg.severity = .ok saId) :
    saDo cfg .on .failure none gh = ⟨some ⟨saId⟩, none, 1⟩ ∧
    (saDo cfg .on .failure none gh).meta.map renderMeta
      = some ("\x7b\"ghsa_id\":\"" ++ saId ++ "\"\x7d") := by
  constructor
  · simp [saDo, hcreate]
  · simp [saDo, hcreate, renderMeta]

/-- Witness for C2 at a concrete provider returning id 123 under severity
VALUE_HIGH: one provider call, no error, metadata rendering to the
expected JSON text. -/
theorem saDo_creates_advisory_witness :
    saDo ⟨"VALUE_HIGH"⟩ .on .failure none
        ⟨fun _ => .ok "123", .ok ()⟩
      = ⟨some ⟨"123"⟩, none, 1⟩ ∧
    (saDo ⟨"VALUE_HIGH"⟩ .on .failure none
        ⟨fun _ => .ok "123", .ok ()⟩).meta.map renderMeta
      = some "\x7b\"ghsa_id\":\"123\"\x7d" :=
  saDo_creates_advisory ⟨"VALUE_HIGH"⟩ ⟨fun _ => .ok "123", .ok ()⟩ "123"
    rfl rfl

/-- C3: On with a failing outcome and no prior state where the provider
call fails returns the action-failed error kind — a constructor distinct
from the evaluation-error kind — together with nil metadata; and on every
input whatsoever, Do never returns non-nil metadata together with an
error. -/
theorem saDo_provider_error (cfg : SAConfig) (gh : SAProvider) (e : String)
    (hcreate : gh.createSecurityAdvisory cfg.severity = .error e) :
    saDo cfg .on .failure none gh
      = ⟨none, some EngineError.actionFailed, 1⟩ ∧
    EngineError.actionFailed ≠ EngineError.evaluationFailed ∧
    (∀ (cfg' : SAConfig) (cmd : ActionCmd) (outcome : EvalOutcome)
        (prior : Option AlertMeta) (gh' : SAProvider),
      (saDo cfg' cmd outcome prior gh').err ≠ none →
        (saDo cfg' cmd outcome prior gh').meta = none) := by
  refine ⟨by simp [saDo, hcreate], by simp, ?_⟩
  intro cfg' cmd outcome prior gh' herr
  cases cmd <;> cases outcome <;> cases prior <;>
    simp_all [saDo] <;>
    first
    | (rcases h : gh'.createSecurityAdvisory cfg'.severity with _ | _ <;>
        simp_all [saDo])
    | (rcases h : gh'.closeSecurityAdvisory with _ | _ <;> simp_all [saDo])

/-- Witness for C3 at a concrete failing provider: action-failed error,
nil metadata, and the no-partial-metadata property instantiated at that
same call. -/
theorem saDo_provider_error_witness :
    saDo ⟨"VALUE_HIGH"⟩ .on .failure none
        ⟨fun _ => .error "failed to create security advisory", .ok ()⟩
      = ⟨none, some EngineError.actionFailed, 1⟩ ∧
    (saDo ⟨"VALUE_HIGH"⟩ .on .failure none
        ⟨fun _ => .error "failed to create security advisory", .ok ()⟩).meta
      = none := by
  have h := saDo_provider_error ⟨"VALUE_HIGH"⟩
    ⟨fun _ => .error "failed to create security advisory", .ok ()⟩
    "failed to create security advisory" rfl
  exact ⟨h.1, h.2.2 ⟨"VALUE_HIGH"⟩ .on .failure none
    ⟨fun _ => .error "failed to create security advisory", .ok ()⟩
    (by simp [saDo])⟩

/-- C7: after a first successful On with a failing outcome, a second On
with the same failing outcome and the persisted metadata as prior state
returns metadata identical to the first call's, no error, and issues no
provider call at all. -/
theorem saDo_on_idempotent (cfg : SAConfig) (gh : SAProvider)
    (saId : String)
    (hcreate : gh.createSecurityAdvisory cfg.severity = .ok saId) :
    (saDo cfg .on .failure none gh).err = none ∧
    saDo cfg .on .failure (saDo cfg .on .failure none gh).meta gh
      = ⟨(saDo cfg .on .failure none gh).meta, none, 0⟩ := by
  constructor
  · simp [saDo, hcreate]
  · simp [saDo, hcreate]

/-- Witness for C7 at a concrete provider: the second On returns the
first call's metadata with zero provider calls. -/
theorem saDo_on_idempotent_witness :
    (saDo ⟨"VALUE_HIGH"⟩ .on .failure none
        ⟨fun _ => .ok "123", .ok ()⟩).err = none ∧
    saDo ⟨"VALUE_HIGH"⟩ .on .failure
        (saDo ⟨"VALUE_HIGH"⟩ .on .failure none
          ⟨fun _ => .ok "123", .ok ()⟩).meta
        ⟨fun _ => .ok "123", .ok ()⟩
      = ⟨(saDo ⟨"VALUE_HIGH"⟩ .on .failure none
          ⟨fun _ => .ok "123", .ok ()⟩).meta, none, 0⟩ :=
  saDo_on_idempotent ⟨"VALUE_HIGH"⟩ ⟨fun _ => .ok "123", .ok ()⟩ "123" rfl

/-- Processing a bad reference always fails, whatever registry has been
accumulated so far. -/
lemma registerDataSource_badRef (st : Store) (projs : List Nat)
    (ref : Option DSRef) (hbad : badRef st projs ref)
    (acc : List RegisteredFunction) :
    ∃ e, registerDataSource st projs acc ref = .error e := by
  rcases hbad with hnil | ⟨r, hr, hcase⟩
  · exact ⟨.nilReference, by simp [hnil, registerDataSource]⟩
  · subst hr
    by_cases hname : r.name = ""
    · exact ⟨.emptyName, by simp [registerDataSource, hname]⟩
    · rcases hcase with h0 | ⟨e, hlook⟩ | ⟨ds, hds, hrest⟩
      · exact absurd h0 hname
      · exact ⟨.storeError e, by simp [registerDataSource, hname, hlook]⟩
      · rcases hrest with ⟨e, hlist⟩ | ⟨fns, hfns, hzero⟩
        · exact ⟨.storeError e,
            by simp [registerDataSource, hname, hds, hlist]⟩
        · rcases hzero with hempty | hall
          · subst hempty
            exact ⟨.zeroFunctions,
              by simp [registerDataSource, hname, hds, hfns]⟩
          · cases fns with
            | nil =>
                exact ⟨.zeroFunctions,
                  by simp [registerDataSource, hname, hds, hfns]⟩
            | cons f rest =>
                have hf := hall f (List.mem_cons_self f rest)
                cases hdf : decodeFunction f with
                | ok d => exact absurd hdf (hf d)
                | error e' =>
                    exact ⟨e', by simp [registerDataSource, hname, hds,
                      hfns, decodeAll, hdf]⟩

/-- Folding the registration over a reference list containing a bad
reference always fails, whatever the accumulator. -/
lemma foldlM_registerDataSource_badRef (st : Store) (projs : List Nat) :
    ∀ (refs : List (Option DSRef)),
      (∃ ref ∈ refs, badRef st projs ref) →
      ∀ acc, ∃ e, refs.foldlM (registerDataSource st projs) acc
        = .error e := by
  intro refs
  induction refs with
  | nil =>
      rintro ⟨ref, hmem, -⟩
      simp at hmem
  | cons x xs ih =>
      rintro ⟨ref, hmem, hbad⟩ acc
      rcases List.mem_cons.mp hmem with heq | hmem'
      · subst heq
        obtain ⟨e, he⟩ := registerDataSource_badRef st projs ref hbad acc
        exact ⟨e, by rw [List.foldlM_cons, he]; rfl⟩
      · cases hreg : registerDataSource st projs acc x with
        | error e => exact ⟨e, by rw [List.foldlM_cons, hreg]; rfl⟩
        | ok acc' =>
            obtain ⟨e, he⟩ := ih ⟨ref, hmem', hbad⟩ acc'
            exact ⟨e, by rw [List.foldlM_cons, hreg]; exact he⟩

/-- C4: whenever the rule type's project id is unparsable, a declared
data-source reference is nil or has an empty name, any Store call
(parent-project lookup, data-source lookup by name, or function listing)
fails, or a referenced data source resolves to zero decodable functions,
BuildDataSourceRegistry returns an error and never any (hence never a
partially populated) registry. -/
theorem BuildDataSourceRegistry_fails (st : Store) (rt : RuleTypeDS)
    (h : parseProjectID (rt.project.getD "") = none
       ∨ (∃ pid e, parseProjectID (rt.project.getD "") = some pid ∧
            st.getParentProjects pid = .error e)
       ∨ (∃ pid projs, parseProjectID (rt.project.getD "") = some pid ∧
            st.getParentProjects pid = .ok projs ∧
            ∃ ref ∈ rt.dataSources, badRef st projs ref)) :
    (∃ e, BuildDataSourceRegistry st rt = .error e) ∧
    ∀ reg, BuildDataSourceRegistry st rt ≠ .ok reg := by
  have hmain : ∃ e, BuildDataSourceRegistry st rt = .error e := by
    rcases h with hparse | ⟨pid, e, hp, hpar⟩ | ⟨pid, projs, hp, hpar, hbad⟩
    · exact ⟨.invalidProjectID, by simp [BuildDataSourceRegistry, hparse]⟩
    · exact ⟨.storeError e, by simp [BuildDataSourceRegistry, hp, hpar]⟩
    · obtain ⟨e, he⟩ :=
        foldlM_registerDataSource_badRef st projs rt.dataSources hbad []
      exact ⟨e, by simp [BuildDataSourceRegistry, hp, hpar, he]⟩
  refine ⟨hmain, ?_⟩
  obtain ⟨e, he⟩ := hmain
  intro reg hok
  rw [he] at hok
  exact Except.noConfusion hok

/-- Witness for C4 at a concrete input: a rule type whose declared
project id does not parse makes the build fail against a trivial
store. -/
theorem BuildDataSourceRegistry_fails_witness :
    (∃ e, BuildDataSourceRegistry
        ⟨fun _ => .ok [], fun _ _ => .error "db", fun _ => .ok []⟩
        ⟨some "invalid_uuid", [some ⟨"test_data_source"⟩]⟩ = .error e) ∧
    ∀ reg, BuildDataSourceRegistry
        ⟨fun _ => .ok [], fun _ _ => .error "db", fun _ => .ok []⟩
        ⟨some "invalid_uuid", [some ⟨"test_data_source"⟩]⟩ ≠ .ok reg :=
  BuildDataSourceRegistry_fails
    ⟨fun _ => .ok [], fun _ _ => .error "db", fun _ => .ok []⟩
    ⟨some "invalid_uuid", [some ⟨"test_data_source"⟩]⟩
    (Or.inl (by decide))

end Minder
